import Mathlib

/-!
Verification of the DBF thrust-stand firmware (`Thrust_Stand_DBF.ino`).

The firmware is shallowly embedded: the session-counter advance and
filename derivation (`create_Filename`, source lines 136-151) become pure
Lean functions; the boot sequence (`setup`, `init_SD`, `init_Display`,
`init_LoadCell`) and the sampling loop (`loop`) become functions producing
explicit event traces over an `Ev` type that records EEPROM writes, SD
open/write/close operations, serial output, LCD output and status-LED
changes.  The C++ `long` is modelled as a wrapping 32-bit signed integer,
`unsigned long` timestamps as `Nat`, and `float` readings as `Rat` (the
comparisons and decimal formatting the claims mention are exact on the
values involved).
-/

/-- Two's-complement wraparound of a 32-bit signed `long`, used to model
`index++` on the value read back from EEPROM. -/
def wrapLong (v : Int) : Int :=
  (v + 2147483648) % 4294967296 - 2147483648

/-- The CR-LF terminator appended by the Arduino `println` family. -/
def crlf : String := "\r\n"

/-- Result of `create_Filename` (source lines 136-151): the index value
written back to EEPROM (the global `index`) and the global `filename`. -/
structure FilenameResult where
  persisted : Int
  filename : String
deriving DecidableEq

/-- The pure filename derivation of source lines 146-150: `extra_0` is `"0"`
whenever `index < 10` (note: also for negative indices), and the name is
`"TEST_" + extra_0 + String(index) + ".txt"`. -/
def derive (index : Int) : String :=
  "TEST_" ++ (if index < 10 then "0" else "") ++ Int.repr index ++ ".txt"

/-- `create_Filename` (source lines 136-151): read the stored long,
increment it (with 32-bit wraparound), reset to 0 if the result exceeds 99,
persist the new value back to EEPROM offset `calVal_eepromAdress + 4`, and
derive the filename from it.  `stored` is the long read by `EEPROM.get`. -/
def create_Filename (stored : Int) : FilenameResult :=
  let index := wrapLong (stored + 1)
  let index2 := if index > 99 then 0 else index
  { persisted := index2, filename := derive index2 }

/-- Zero-padded two-digit decimal rendering, written from the spec's words
("zero-padded-two-digit(index)") for comparison with `derive`. -/
def zeroPad2 (n : Nat) : String :=
  if n < 10 then "0" ++ Nat.repr n else Nat.repr n

/-- Left-pad a digit string with zeros to width `w`; used for the
fractional part of fixed-point rendering. -/
def leftPad0 (w : Nat) (s : String) : String :=
  String.mk (List.replicate (w - s.length) '0') ++ s

/-- Fixed-point decimal rendering with `digits` fractional digits,
modelling Arduino `String(float, digits)` (round half up on `Rat`). -/
def fmtFixed (q : Rat) (digits : Nat) : String :=
  let p : Nat := 10 ^ digits
  let scaled : Nat := (q.num.natAbs * p * 2 + q.den) / (2 * q.den)
  (if q < 0 then "-" else "") ++
    Nat.repr (scaled / p) ++ "." ++ leftPad0 digits (Nat.repr (scaled % p))

/-- The sample line `"" + String(t) + "," + String(i, 4)` of source
lines 87 and 94. -/
def formatLine (t : Nat) (i : Rat) : String :=
  Nat.repr t ++ "," ++ fmtFixed i 4

/-- Events observable at the firmware's external interfaces: EEPROM writes,
SD card open attempts (with their success), raw SD file writes, SD file
closes, raw serial output, LCD text at a (column, row) cursor position, and
status-LED updates (`lightEv g` models `greenLight(g)`: GREEN := g,
RED := not g). -/
inductive Ev
  | eepromPut (offset : Nat) (value : Int)
  | sdOpenAttempt (name : String) (ok : Bool)
  | sdWriteRaw (name : String) (raw : String)
  | sdCloseEv (name : String)
  | serialRaw (raw : String)
  | lcdText (col row : Nat) (text : String)
  | lightEv (green : Bool)
deriving DecidableEq

/-- Whether an event is an SD open attempt. -/
def Ev.isSdOpen : Ev → Bool
  | .sdOpenAttempt _ _ => true
  | _ => false

/-- Whether an event touches the durable sink (SD open/write/close). -/
def Ev.isDurable : Ev → Bool
  | .sdOpenAttempt _ _ => true
  | .sdWriteRaw _ _ => true
  | .sdCloseEv _ => true
  | _ => false

/-- The durable-sink events of a trace. -/
def durableEvs (l : List Ev) : List Ev := l.filter Ev.isDurable

/-- The raw strings written to the durable sink. -/
def sdWriteRaws (l : List Ev) : List String :=
  l.filterMap fun e => match e with | .sdWriteRaw _ s => some s | _ => none

/-- The raw strings written to the serial (diagnostic) sink. -/
def serialRaws (l : List Ev) : List String :=
  l.filterMap fun e => match e with | .serialRaw s => some s | _ => none

/-- The status-LED values written, in order. -/
def lightValues (l : List Ev) : List Bool :=
  l.filterMap fun e => match e with | .lightEv g => some g | _ => none

/-- One fold step tracking the last status-LED value. -/
def lightFold (acc : Option Bool) (e : Ev) : Option Bool :=
  match e with | .lightEv g => some g | _ => acc

/-- The final status-LED state after a trace (none if never written). -/
def lastLight (l : List Ev) : Option Bool := l.foldl lightFold none

/-- Whether an SD file handle is open after processing a trace, starting
from handle state `b` (a failed open attempt leaves no open handle). -/
def handleOpenAfter (b : Bool) : List Ev → Bool
  | [] => b
  | .sdOpenAttempt _ ok :: rest => handleOpenAfter ok rest
  | .sdCloseEv _ :: rest => handleOpenAfter false rest
  | _ :: rest => handleOpenAfter b rest

/-- The state the sampling loop carries across iterations: the
`static boolean newDataReady` and the global `unsigned long t`. -/
structure LoopState where
  newDataReady : Bool
  t : Nat
deriving DecidableEq

/-- The environment of one `loop` iteration: whether `LoadCell.update()`
reports new data, the value of `millis()`, the reading returned by
`LoadCell.getData()`, and whether `SD.open(filename, FILE_WRITE)`
succeeds. -/
structure PollInput where
  ready : Bool
  now : Nat
  reading : Rat
  openOk : Bool
deriving DecidableEq

/-- `const int serialPrintInterval = 0` (source line 77). -/
def serialPrintInterval : Nat := 0

/-- The guard under which an iteration accepts a sample: `newDataReady`
(after `LoadCell.update()`) and `millis() > t + serialPrintInterval`. -/
def accepted (s : LoopState) (inp : PollInput) : Prop :=
  (s.newDataReady || inp.ready) = true ∧ s.t + serialPrintInterval < inp.now

instance (s : LoopState) (inp : PollInput) : Decidable (accepted s inp) := by
  unfold accepted
  exact inferInstance

/-- The trailing-space count of `write_Data_To_LCD` (source lines 213-221):
the first matching magnitude bracket wins. -/
def padCount (dataIn : Rat) : Nat :=
  if dataIn < 10 ∧ 0 < dataIn then 4
  else if dataIn < 100 ∧ -10 < dataIn then 3
  else if dataIn < 1000 ∧ -100 < dataIn then 2
  else if dataIn < 10000 ∧ -1000 < dataIn then 1
  else 0

/-- The trailing-space suffix rendered after the reading on LCD row 3. -/
def lcdPad (dataIn : Rat) : String :=
  String.mk (List.replicate (padCount dataIn) ' ')

/-- `write_Data_To_LCD` (source lines 205-222): time on row 2, reading with
2 decimal places plus the bracket-dependent trailing spaces on row 3. -/
def write_Data_To_LCD (t : Nat) (dataIn : Rat) : List Ev :=
  [.lcdText 0 2 ("Time (ms): " ++ Nat.repr t),
   .lcdText 0 3 ("Thrust (g): " ++ fmtFixed dataIn 2 ++ lcdPad dataIn)]

/-- One iteration of `loop` (source lines 75-99): poll the load cell; on an
accepted sample print the line to serial, update the LCD, clear
`newDataReady`, then open the session file, and if the open succeeded write
the same line and close the file. -/
def loopStep (fn : String) (s : LoopState) (inp : PollInput) :
    LoopState × List Ev :=
  if accepted s inp then
    let line := formatLine inp.now inp.reading
    (⟨false, inp.now⟩,
      [.serialRaw (line ++ crlf)] ++
      write_Data_To_LCD inp.now inp.reading ++
      [.sdOpenAttempt fn inp.openOk] ++
      (if inp.openOk then [.sdWriteRaw fn (line ++ crlf), .sdCloseEv fn]
       else []))
  else
    (⟨s.newDataReady || inp.ready, s.t⟩, [])

/-- Run the loop over a sequence of poll environments, accumulating the
event trace. -/
def runLoop (fn : String) (s : LoopState) : List PollInput → LoopState × List Ev
  | [] => (s, [])
  | inp :: rest =>
    let st := loopStep fn s inp
    let r := runLoop fn st.1 rest
    (r.1, st.2 ++ r.2)

/-- Reference sequence of accepted samples, in acceptance order: the
(millis, reading) pairs of the iterations whose guard holds. -/
def acceptedSamples (s : LoopState) : List PollInput → List (Nat × Rat)
  | [] => []
  | inp :: rest =>
    if accepted s inp then
      (inp.now, inp.reading) :: acceptedSamples ⟨false, inp.now⟩ rest
    else
      acceptedSamples ⟨s.newDataReady || inp.ready, s.t⟩ rest

/-- The boot environment: the long stored at EEPROM offset 4, whether
`SD.begin(10)` succeeds, whether `init_SD`'s `SD.open(filename, FILE_WRITE)`
succeeds, whether `init_Display`'s read-only `SD.open(filename)` succeeds,
and whether the load-cell tare times out. -/
structure BootCfg where
  stored : Int
  sdBeginOk : Bool
  openOk : Bool
  displayOpenOk : Bool
  tareTimeout : Bool
deriving DecidableEq

/-- `init_SD` (source lines 109-130): status prints, then `create_Filename`
(whose `EEPROM.put` is the `eepromPut` event), then the session-file open;
on success write the session-start marker, close, and turn the LED green,
otherwise leave it red. -/
def init_SD_events (stored : Int) (sdBeginOk openOk : Bool) : List Ev :=
  let r := create_Filename stored
  [.serialRaw ("SD card starting..." ++ crlf)] ++
  (if sdBeginOk then [] else [.serialRaw ("SD initialization failed!" ++ crlf)]) ++
  [.serialRaw ("SD initialization done." ++ crlf),
   .eepromPut 4 r.persisted,
   .sdOpenAttempt r.filename openOk,
   .serialRaw ("Attempting to open file: " ++ r.filename ++ " --> " ++
     (if openOk then "1" else "0") ++ crlf)] ++
  (if openOk then
    [.serialRaw ("Open SD file passed!" ++ crlf),
     .sdWriteRaw r.filename ("Start of test " ++ Int.repr r.persisted ++ crlf),
     .sdCloseEv r.filename,
     .lightEv true]
   else
    [.serialRaw ("Open SD file failed!" ++ crlf),
     .lightEv false])

/-- `init_Display` (source lines 182-202): reopen the session file read-only
to check openability, close it, then render "Writing: "/"Failed: " plus the
filename at row 0. -/
def init_Display_events (fn : String) (displayOpenOk : Bool) : List Ev :=
  [.serialRaw ("LCD starting..." ++ crlf),
   .sdOpenAttempt fn displayOpenOk,
   .sdCloseEv fn,
   .lcdText 0 0 ((if displayOpenOk then "Writing: " else "Failed: ") ++ fn)]

/-- `declare_Load_Cell_Failure` (source lines 224-227). -/
def declare_Load_Cell_Failure : List Ev :=
  [.lcdText 0 0 "LOAD CELL INIT FAIL!"]

/-- `init_LoadCell` (source lines 154-179): on a tare timeout print the
diagnostic, force the LED red, render the failure message, then spin in
`while (1);` forever; otherwise complete startup. -/
def init_LoadCell_events (tareTimeout : Bool) : List Ev :=
  [.serialRaw ("HX711 starting..." ++ crlf)] ++
  (if tareTimeout then
    [.serialRaw ("Timeout, check MCU>HX711 wiring and pin designations" ++ crlf),
     .lightEv false] ++ declare_Load_Cell_Failure
   else
    [.serialRaw ("HX711 startup is complete" ++ crlf)])

/-- `setup` (source lines 62-73): LED off (red), the empty
`Serial.println()`, then `init_SD`, `init_Display`, `init_LoadCell`. -/
def setupEvents (cfg : BootCfg) : List Ev :=
  [.lightEv false, .serialRaw crlf] ++
  init_SD_events cfg.stored cfg.sdBeginOk cfg.openOk ++
  init_Display_events (create_Filename cfg.stored).filename cfg.displayOpenOk ++
  init_LoadCell_events cfg.tareTimeout

/-- Whether boot ends in the `while (1);` spin of `init_LoadCell`, so the
main loop never runs. -/
def halts (cfg : BootCfg) : Bool := cfg.tareTimeout

/-- Loop state at entry of the first iteration: `static boolean
newDataReady = 0` and the global `unsigned long t = 0`. -/
def initialLoopState : LoopState := ⟨false, 0⟩

/-- The whole firmware run: the boot trace, followed by the loop trace
unless boot halted in the tare-failure spin. -/
def systemEvents (cfg : BootCfg) (inputs : List PollInput) : List Ev :=
  setupEvents cfg ++
  (if halts cfg then []
   else (runLoop (create_Filename cfg.stored).filename initialLoopState inputs).2)

set_option maxRecDepth 4000

lemma wrapLong_id (v : Int) (h1 : -2147483648 ≤ v) (h2 : v < 2147483648) :
    wrapLong v = v := by
  unfold wrapLong
  omega

lemma create_persisted_mod (v : Int) (h0 : 0 ≤ v) (h99 : v ≤ 99) :
    (create_Filename v).persisted = (v + 1) % 100 := by
  simp only [create_Filename, wrapLong_id (v + 1) (by omega) (by omega)]
  split <;> omega

lemma derive_fin_eq :
    ∀ a : Fin 100, derive ((a : Nat) : Int) = "TEST_" ++ zeroPad2 (a : Nat) ++ ".txt" := by
  decide

lemma derive_fin_inj :
    ∀ a b : Fin 100,
      derive ((a : Nat) : Int) = derive ((b : Nat) : Int) → a = b := by
  decide

lemma derive_fin_len :
    ∀ a : Fin 100, ("TEST_" ++ zeroPad2 (a : Nat)).length ≤ 8 := by
  decide

/-- Claim C1: for every stored SessionIndex value v in [0,99], one boot-time
call of `create_Filename` yields index (v+1) mod 100, exactly that value is
the one written to EEPROM offset 4, the write happens before any SD open
attempt of the boot trace, and a stored 99 becomes a persisted 0 with
filename "TEST_00.txt". -/
theorem c1_counter_advance_persists_before_open (v : Int)
    (h0 : 0 ≤ v) (h99 : v ≤ 99) :
    (create_Filename v).persisted = (v + 1) % 100 ∧
    (∀ cfg : BootCfg, cfg.stored = v →
      Ev.eepromPut 4 ((v + 1) % 100) ∈
        (setupEvents cfg).takeWhile (fun e => !e.isSdOpen)) ∧
    (v = 99 →
      create_Filename v = { persisted := 0, filename := "TEST_00.txt" }) := by
  have hp := create_persisted_mod v h0 h99
  refine ⟨hp, ?_, ?_⟩
  · rintro ⟨st, sdb, opk, dok, tto⟩ hst
    simp only at hst
    subst hst
    cases sdb <;>
      simp [setupEvents, init_SD_events, List.takeWhile, Ev.isSdOpen, hp]
  · rintro rfl
    decide

/-- Witness for C1 at v = 99. -/
theorem c1_counter_advance_persists_before_open_witness :
    (create_Filename 99).persisted = (99 + 1) % 100 ∧
    create_Filename 99 = { persisted := 0, filename := "TEST_00.txt" } :=
  ⟨(c1_counter_advance_persists_before_open 99 (by decide) (by decide)).1,
   (c1_counter_advance_persists_before_open 99 (by decide) (by decide)).2.2 rfl⟩

/-- Claim C2: for every index in [0,99], `derive` produces "TEST_" followed
by the zero-padded two-digit index and ".txt"; it is injective over [0,99];
and every produced base name (the part before ".txt") has at most 8
characters. -/
theorem c2_derive_two_digit_injective_short (i : Int)
    (h0 : 0 ≤ i) (h99 : i ≤ 99) :
    derive i = "TEST_" ++ zeroPad2 i.toNat ++ ".txt" ∧
    (∀ j : Int, 0 ≤ j → j ≤ 99 → derive i = derive j → i = j) ∧
    ∃ base : String, derive i = base ++ ".txt" ∧ base.length ≤ 8 := by
  have hi : ((i.toNat : Nat) : Int) = i := Int.toNat_of_nonneg h0
  have hilt : i.toNat < 100 := by omega
  refine ⟨?_, ?_, ?_⟩
  · have := derive_fin_eq ⟨i.toNat, hilt⟩
    simpa [hi] using this
  · intro j hj0 hj99 hde
    have hj : ((j.toNat : Nat) : Int) = j := Int.toNat_of_nonneg hj0
    have hjlt : j.toNat < 100 := by omega
    have := derive_fin_inj ⟨i.toNat, hilt⟩ ⟨j.toNat, hjlt⟩
    rw [hi, hj] at this
    have h2 := this hde
    have h3 : i.toNat = j.toNat := congrArg Fin.val h2
    omega
  · refine ⟨"TEST_" ++ zeroPad2 i.toNat, ?_, ?_⟩
    · have := derive_fin_eq ⟨i.toNat, hilt⟩
      simpa [hi] using this
    · exact derive_fin_len ⟨i.toNat, hilt⟩

/-- Witness for C2 at i = 7. -/
theorem c2_derive_two_digit_injective_short_witness :
    derive 7 = "TEST_" ++ zeroPad2 (7 : Int).toNat ++ ".txt" :=
  (c2_derive_two_digit_injective_short 7 (by decide) (by decide)).1

lemma handleOpenAfter_append (a b : List Ev) (acc : Bool) :
    handleOpenAfter acc (a ++ b) = handleOpenAfter (handleOpenAfter acc a) b := by
  induction a generalizing acc with
  | nil => rfl
  | cons e rest ih => cases e <;> simp [handleOpenAfter, ih]

lemma loopStep_handle (fn : String) (s : LoopState) (inp : PollInput) :
    handleOpenAfter false (loopStep fn s inp).2 = false := by
  by_cases h : accepted s inp
  · cases ho : inp.openOk <;>
      simp [loopStep, h, ho, write_Data_To_LCD, handleOpenAfter]
  · simp [loopStep, h, handleOpenAfter]

lemma runLoop_handle (fn : String) :
    ∀ (inputs : List PollInput) (s : LoopState),
      handleOpenAfter false (runLoop fn s inputs).2 = false := by
  intro inputs
  induction inputs with
  | nil => intro s; rfl
  | cons inp rest ih =>
    intro s
    simp only [runLoop, handleOpenAfter_append, loopStep_handle]
    exact ih _

/-- Claim C3: in every loop iteration that accepts a sample and whose open
succeeds, the durable-sink events are exactly open, one write of the
formatted line terminated by a newline, then close; after any single
iteration, and after any whole run, the durable file handle is closed
(starting closed), so it is closed at the start of every iteration. -/
theorem c3_open_write_close_within_iteration (fn : String) (s : LoopState)
    (inp : PollInput) :
    (accepted s inp → inp.openOk = true →
      durableEvs (loopStep fn s inp).2 =
        [Ev.sdOpenAttempt fn true,
         Ev.sdWriteRaw fn (formatLine inp.now inp.reading ++ crlf),
         Ev.sdCloseEv fn] ∧
      (formatLine inp.now inp.reading ++ crlf).data =
        (formatLine inp.now inp.reading).data ++ ['\r', '\n']) ∧
    handleOpenAfter false (loopStep fn s inp).2 = false ∧
    (∀ inputs : List PollInput,
      handleOpenAfter false (runLoop fn s inputs).2 = false) := by
  refine ⟨?_, loopStep_handle fn s inp, fun inputs => runLoop_handle fn inputs s⟩
  intro h ho
  constructor
  · simp [loopStep, h, ho, durableEvs, write_Data_To_LCD, Ev.isDurable,
      List.filter]
  · simp [String.data_append, crlf]

/-- Witness for C3: a concrete accepted iteration with a successful open. -/
theorem c3_open_write_close_within_iteration_witness :
    durableEvs (loopStep "TEST_01.txt" initialLoopState
        { ready := true, now := 5, reading := 1, openOk := true }).2 =
      [Ev.sdOpenAttempt "TEST_01.txt" true,
       Ev.sdWriteRaw "TEST_01.txt" (formatLine 5 1 ++ crlf),
       Ev.sdCloseEv "TEST_01.txt"] ∧
    handleOpenAfter false (loopStep "TEST_01.txt" initialLoopState
        { ready := true, now := 5, reading := 1, openOk := true }).2 = false :=
  ⟨((c3_open_write_close_within_iteration "TEST_01.txt" initialLoopState
      { ready := true, now := 5, reading := 1, openOk := true }).1
      (by decide) rfl).1,
   (c3_open_write_close_within_iteration "TEST_01.txt" initialLoopState
      { ready := true, now := 5, reading := 1, openOk := true }).2.1⟩

/-- Claim C4: when an accepted sample's durable open fails, the diagnostic
line is still emitted, nothing is written to the durable sink, exactly one
open attempt is made (no retry), the status LED is untouched, and the loop
state advances normally to the next poll. -/
theorem c4_open_failure_drops_durable_only (fn : String) (s : LoopState)
    (inp : PollInput) (h : accepted s inp) (ho : inp.openOk = false) :
    Ev.serialRaw (formatLine inp.now inp.reading ++ crlf) ∈
      (loopStep fn s inp).2 ∧
    sdWriteRaws (loopStep fn s inp).2 = [] ∧
    durableEvs (loopStep fn s inp).2 = [Ev.sdOpenAttempt fn false] ∧
    lightValues (loopStep fn s inp).2 = [] ∧
    (loopStep fn s inp).1 = { newDataReady := false, t := inp.now } := by
  refine ⟨?_, ?_, ?_, ?_, ?_⟩ <;>
    simp [loopStep, h, ho, write_Data_To_LCD, sdWriteRaws, durableEvs,
      lightValues, Ev.isDurable, List.filter, List.filterMap]

/-- Witness for C4: a concrete accepted iteration with a failing open. -/
theorem c4_open_failure_drops_durable_only_witness :
    Ev.serialRaw (formatLine 5 1 ++ crlf) ∈
      (loopStep "TEST_01.txt" initialLoopState
        { ready := true, now := 5, reading := 1, openOk := false }).2 ∧
    sdWriteRaws (loopStep "TEST_01.txt" initialLoopState
        { ready := true, now := 5, reading := 1, openOk := false }).2 = [] ∧
    durableEvs (loopStep "TEST_01.txt" initialLoopState
        { ready := true, now := 5, reading := 1, openOk := false }).2 =
      [Ev.sdOpenAttempt "TEST_01.txt" false] :=
  have h := c4_open_failure_drops_durable_only "TEST_01.txt" initialLoopState
    { ready := true, now := 5, reading := 1, openOk := false } (by decide) rfl
  ⟨h.1, h.2.1, h.2.2.1⟩

lemma serialRaws_append (a b : List Ev) :
    serialRaws (a ++ b) = serialRaws a ++ serialRaws b := by
  simp [serialRaws, List.filterMap_append]

lemma sdWriteRaws_append (a b : List Ev) :
    sdWriteRaws (a ++ b) = sdWriteRaws a ++ sdWriteRaws b := by
  simp [sdWriteRaws, List.filterMap_append]

lemma lightValues_append (a b : List Ev) :
    lightValues (a ++ b) = lightValues a ++ lightValues b := by
  simp [lightValues, List.filterMap_append]

lemma loopStep_state (fn : String) (s : LoopState) (inp : PollInput) :
    (loopStep fn s inp).1 =
      if accepted s inp then ⟨false, inp.now⟩
      else ⟨s.newDataReady || inp.ready, s.t⟩ := by
  by_cases h : accepted s inp <;> simp [loopStep, h]

lemma loopStep_serialRaws (fn : String) (s : LoopState) (inp : PollInput) :
    serialRaws (loopStep fn s inp).2 =
      if accepted s inp then [formatLine inp.now inp.reading ++ crlf]
      else [] := by
  by_cases h : accepted s inp
  · cases ho : inp.openOk <;>
      simp [loopStep, h, ho, serialRaws, write_Data_To_LCD]
  · simp [loopStep, h, serialRaws]

lemma loopStep_sdWriteRaws (fn : String) (s : LoopState) (inp : PollInput) :
    sdWriteRaws (loopStep fn s inp).2 =
      if accepted s inp ∧ inp.openOk = true
      then [formatLine inp.now inp.reading ++ crlf]
      else [] := by
  by_cases h : accepted s inp
  · cases ho : inp.openOk <;>
      simp [loopStep, h, ho, sdWriteRaws, write_Data_To_LCD]
  · simp [loopStep, h, sdWriteRaws]

lemma runLoop_serialRaws (fn : String) :
    ∀ (inputs : List PollInput) (s : LoopState),
      serialRaws (runLoop fn s inputs).2 =
        (acceptedSamples s inputs).map (fun p => formatLine p.1 p.2 ++ crlf) := by
  intro inputs
  induction inputs with
  | nil => intro s; rfl
  | cons inp rest ih =>
    intro s
    show serialRaws ((loopStep fn s inp).2 ++ (runLoop fn (loopStep fn s inp).1 rest).2) = _
    rw [serialRaws_append, loopStep_serialRaws, loopStep_state, ih]
    by_cases h : accepted s inp
    · simp [h, acceptedSamples]
    · simp [h, acceptedSamples]

lemma runLoop_sdWriteRaws (fn : String) :
    ∀ (inputs : List PollInput) (s : LoopState),
      (∀ i ∈ inputs, i.openOk = true) →
      sdWriteRaws (runLoop fn s inputs).2 =
        (acceptedSamples s inputs).map (fun p => formatLine p.1 p.2 ++ crlf) := by
  intro inputs
  induction inputs with
  | nil => intro s _; rfl
  | cons inp rest ih =>
    intro s hall
    have ho : inp.openOk = true := hall inp (List.mem_cons_self _ _)
    have hrest : ∀ i ∈ rest, i.openOk = true :=
      fun i hi => hall i (List.mem_cons_of_mem _ hi)
    show sdWriteRaws ((loopStep fn s inp).2 ++ (runLoop fn (loopStep fn s inp).1 rest).2) = _
    rw [sdWriteRaws_append, loopStep_sdWriteRaws, loopStep_state, ih _ hrest]
    by_cases h : accepted s inp
    · simp [h, ho, acceptedSamples]
    · simp [h, acceptedSamples]

/-- Claim C5: over any run, the diagnostic sink receives exactly the
formatted lines of the accepted samples in acceptance order, and when every
per-sample open succeeds the durable sink receives the identical lines in
the identical order (the single in-flight sample is the only state
carried). -/
theorem c5_dual_sink_identical_lines_in_order (fn : String) (s : LoopState)
    (inputs : List PollInput) :
    serialRaws (runLoop fn s inputs).2 =
      (acceptedSamples s inputs).map (fun p => formatLine p.1 p.2 ++ crlf) ∧
    ((∀ i ∈ inputs, i.openOk = true) →
      sdWriteRaws (runLoop fn s inputs).2 =
        serialRaws (runLoop fn s inputs).2) :=
  ⟨runLoop_serialRaws fn inputs s,
   fun hall => by
    rw [runLoop_serialRaws fn inputs s, runLoop_sdWriteRaws fn inputs s hall]⟩

/-- Witness for C5: a concrete two-sample run with all opens succeeding. -/
theorem c5_dual_sink_identical_lines_in_order_witness :
    serialRaws (runLoop "TEST_01.txt" initialLoopState
        [{ ready := true, now := 1, reading := 1, openOk := true },
         { ready := true, now := 2, reading := 2, openOk := true }]).2 =
      (acceptedSamples initialLoopState
        [{ ready := true, now := 1, reading := 1, openOk := true },
         { ready := true, now := 2, reading := 2, openOk := true }]).map
        (fun p => formatLine p.1 p.2 ++ crlf) ∧
    sdWriteRaws (runLoop "TEST_01.txt" initialLoopState
        [{ ready := true, now := 1, reading := 1, openOk := true },
         { ready := true, now := 2, reading := 2, openOk := true }]).2 =
      serialRaws (runLoop "TEST_01.txt" initialLoopState
        [{ ready := true, now := 1, reading := 1, openOk := true },
         { ready := true, now := 2, reading := 2, openOk := true }]).2 :=
  ⟨(c5_dual_sink_identical_lines_in_order "TEST_01.txt" initialLoopState _).1,
   (c5_dual_sink_identical_lines_in_order "TEST_01.txt" initialLoopState _).2
     (by decide)⟩

lemma foldl_lightFold_of_no_lights :
    ∀ (l : List Ev), lightValues l = [] →
      ∀ acc : Option Bool, l.foldl lightFold acc = acc := by
  intro l
  induction l with
  | nil => intro _ acc; rfl
  | cons e rest ih =>
    intro h acc
    cases e <;> simp_all [lightValues, List.filterMap_cons, lightFold,
      List.foldl_cons]

lemma lastLight_append_no_lights (a b : List Ev) (h : lightValues b = []) :
    lastLight (a ++ b) = lastLight a := by
  simp [lastLight, List.foldl_append, foldl_lightFold_of_no_lights b h]

lemma loopStep_lightValues (fn : String) (s : LoopState) (inp : PollInput) :
    lightValues (loopStep fn s inp).2 = [] := by
  by_cases h : accepted s inp
  · cases ho : inp.openOk <;>
      simp [loopStep, h, ho, lightValues, write_Data_To_LCD]
  · simp [loopStep, h, lightValues]

lemma runLoop_lightValues (fn : String) :
    ∀ (inputs : List PollInput) (s : LoopState),
      lightValues (runLoop fn s inputs).2 = [] := by
  intro inputs
  induction inputs with
  | nil => intro s; rfl
  | cons inp rest ih =>
    intro s
    show lightValues ((loopStep fn s inp).2 ++
      (runLoop fn (loopStep fn s inp).1 rest).2) = []
    rw [lightValues_append, loopStep_lightValues, ih]
    rfl

/-- Claim C6: if the tare step times out at boot, the run consists of the
boot trace alone (the loop contributes no events for any input sequence),
boot ends in the halting spin, the final LED state is red (not green), and
the failure message is rendered on the display. -/
theorem c6_tare_timeout_terminal_failure (cfg : BootCfg)
    (inputs : List PollInput) (h : cfg.tareTimeout = true) :
    systemEvents cfg inputs = setupEvents cfg ∧
    halts cfg = true ∧
    lastLight (systemEvents cfg inputs) = some false ∧
    Ev.lcdText 0 0 "LOAD CELL INIT FAIL!" ∈ systemEvents cfg inputs := by
  have h1 : systemEvents cfg inputs = setupEvents cfg := by
    simp [systemEvents, halts, h]
  refine ⟨h1, by simp [halts, h], ?_, ?_⟩
  · rw [h1]
    rcases cfg with ⟨st, sdb, opk, dok, tto⟩
    simp only at h
    subst h
    cases sdb <;> cases opk <;> rfl
  · rw [h1]
    rcases cfg with ⟨st, sdb, opk, dok, tto⟩
    simp only at h
    subst h
    cases sdb <;> cases opk <;>
      simp [setupEvents, init_SD_events, init_Display_events,
        init_LoadCell_events, declare_Load_Cell_Failure]

/-- Witness for C6 at a concrete boot configuration
(stored 0, SD healthy, tare timed out). -/
theorem c6_tare_timeout_terminal_failure_witness :
    systemEvents ⟨0, true, true, true, true⟩ [] =
      setupEvents ⟨0, true, true, true, true⟩ ∧
    lastLight (systemEvents ⟨0, true, true, true, true⟩ []) = some false :=
  have h := c6_tare_timeout_terminal_failure ⟨0, true, true, true, true⟩ [] rfl
  ⟨h.1, h.2.2.1⟩

/-- Claim C7: on a boot that reaches the loop (no tare timeout), the LED is
written exactly twice during boot — the initialization default (red at the
top of `setup`) and then exactly once with the durable-sink init result —
and the loop writes it never, so the final LED state of any whole run is
green if and only if the boot-time durable open succeeded, regardless of
later durable-sink write failures. -/
theorem c7_indicator_set_once_never_transitions (cfg : BootCfg)
    (inputs : List PollInput) (h : cfg.tareTimeout = false) :
    lightValues (setupEvents cfg) = [false, cfg.openOk] ∧
    lightValues ((runLoop (create_Filename cfg.stored).filename
      initialLoopState inputs).2) = [] ∧
    lastLight (systemEvents cfg inputs) = some cfg.openOk := by
  rcases cfg with ⟨st, sdb, opk, dok, tto⟩
  simp only at h
  subst h
  refine ⟨?_, runLoop_lightValues _ _ _, ?_⟩
  · cases sdb <;> cases opk <;> rfl
  · have h2 : systemEvents ⟨st, sdb, opk, dok, false⟩ inputs =
        setupEvents ⟨st, sdb, opk, dok, false⟩ ++
          (runLoop (create_Filename st).filename initialLoopState inputs).2 := by
      simp [systemEvents, halts]
    rw [h2, lastLight_append_no_lights _ _ (runLoop_lightValues _ _ _)]
    cases sdb <;> cases opk <;> rfl

/-- Witness for C7 at a concrete boot configuration (tare healthy, durable
open succeeded) with one loop iteration whose durable open fails. -/
theorem c7_indicator_set_once_never_transitions_witness :
    lightValues (setupEvents ⟨0, true, true, true, false⟩) = [false, true] ∧
    lastLight (systemEvents ⟨0, true, true, true, false⟩
        [{ ready := true, now := 5, reading := 1, openOk := false }]) =
      some true :=
  have h := c7_indicator_set_once_never_transitions ⟨0, true, true, true, false⟩
    [{ ready := true, now := 5, reading := 1, openOk := false }] rfl
  ⟨h.1, h.2.2⟩

/-- Claim C8: the trailing-space count follows the magnitude brackets with
the first matching bracket winning; here each bracket is stated with the
earlier brackets excluded, which is what first-match-wins means. -/
theorem c8_padding_magnitude_brackets (d : Rat) :
    (0 < d ∧ d < 10 → padCount d = 4) ∧
    (-10 < d ∧ d < 100 ∧ (d ≤ 0 ∨ 10 ≤ d) → padCount d = 3) ∧
    (-100 < d ∧ d < 1000 ∧ (d ≤ -10 ∨ 100 ≤ d) → padCount d = 2) ∧
    (-1000 < d ∧ d < 10000 ∧ (d ≤ -100 ∨ 1000 ≤ d) → padCount d = 1) ∧
    (10000 ≤ d ∨ d ≤ -1000 → padCount d = 0) := by
  unfold padCount
  refine ⟨fun h => ?_, fun h => ?_, fun h => ?_, fun h => ?_, fun h => ?_⟩
  · rw [if_pos ⟨h.2, h.1⟩]
  · have h1 : ¬(d < 10 ∧ 0 < d) := fun hh => by
      rcases h.2.2 with hc | hc <;> linarith [hh.1, hh.2]
    rw [if_neg h1, if_pos ⟨h.2.1, h.1⟩]
  · have h1 : ¬(d < 10 ∧ 0 < d) := fun hh => by
      rcases h.2.2 with hc | hc <;> linarith [hh.1, hh.2]
    have h2 : ¬(d < 100 ∧ -10 < d) := fun hh => by
      rcases h.2.2 with hc | hc <;> linarith [hh.1, hh.2]
    rw [if_neg h1, if_neg h2, if_pos ⟨h.2.1, h.1⟩]
  · have h1 : ¬(d < 10 ∧ 0 < d) := fun hh => by
      rcases h.2.2 with hc | hc <;> linarith [hh.1, hh.2]
    have h2 : ¬(d < 100 ∧ -10 < d) := fun hh => by
      rcases h.2.2 with hc | hc <;> linarith [hh.1, hh.2]
    have h3 : ¬(d < 1000 ∧ -100 < d) := fun hh => by
      rcases h.2.2 with hc | hc <;> linarith [hh.1, hh.2]
    rw [if_neg h1, if_neg h2, if_neg h3, if_pos ⟨h.2.1, h.1⟩]
  · have h1 : ¬(d < 10 ∧ 0 < d) := fun hh => by
      rcases h with hc | hc <;> linarith [hh.1, hh.2]
    have h2 : ¬(d < 100 ∧ -10 < d) := fun hh => by
      rcases h with hc | hc <;> linarith [hh.1, hh.2]
    have h3 : ¬(d < 1000 ∧ -100 < d) := fun hh => by
      rcases h with hc | hc <;> linarith [hh.1, hh.2]
    have h4 : ¬(d < 10000 ∧ -1000 < d) := fun hh => by
      rcases h with hc | hc <;> linarith [hh.1, hh.2]
    rw [if_neg h1, if_neg h2, if_neg h3, if_neg h4]

/-- Witness for C8: one reading in each bracket. -/
theorem c8_padding_magnitude_brackets_witness :
    padCount 5 = 4 ∧ padCount 50 = 3 ∧ padCount 500 = 2 ∧
    padCount 5000 = 1 ∧ padCount 50000 = 0 :=
  ⟨(c8_padding_magnitude_brackets 5).1 (by norm_num),
   (c8_padding_magnitude_brackets 50).2.1 (by norm_num),
   (c8_padding_magnitude_brackets 500).2.2.1 (by norm_num),
   (c8_padding_magnitude_brackets 5000).2.2.2.1 (by norm_num),
   (c8_padding_magnitude_brackets 50000).2.2.2.2 (by norm_num)⟩

/-- Counterexample to claim C9: for reading 7.5 (= mkRat 15 2) the rendered
trailing-space suffix has 4 spaces, for reading 7500.5 (= mkRat 15001 2) it
has 1 space (bracket "< 10000 and > -1000"), so the difference is 3 spaces,
not the claimed 4. -/
theorem c9_counterexample_difference_not_four :
    (lcdPad (mkRat 15 2)).length = 4 ∧
    (lcdPad (mkRat 15001 2)).length = 1 ∧
    ¬((lcdPad (mkRat 15 2)).length = (lcdPad (mkRat 15001 2)).length + 4) := by
  decide

/-- Claim C9 amended: for reading 7.5 the rendered trailing-space suffix
contains exactly 3 spaces more than the suffix rendered for reading
7500.5. -/
theorem c9_amended_pad_difference_three :
    (lcdPad (mkRat 15 2)).length = (lcdPad (mkRat 15001 2)).length + 3 := by
  decide

/-- Counterexample to claim C10's filename clause: at stored value -5 the
advanced index is -4, and since -4 < 10 the zero pad is applied, so the
filename is "TEST_0-4.txt", not "TEST_" + "-4" + ".txt" as claimed. -/
theorem c10_counterexample_zero_pad_applied :
    (create_Filename (-5)).persisted = -4 ∧
    (create_Filename (-5)).filename = "TEST_0-4.txt" ∧
    ¬((create_Filename (-5)).filename =
        "TEST_" ++ Int.repr (-4) ++ ".txt") := by
  decide

/-- Claim C10 amended: the wraparound guard checks only the upper bound:
for any stored 32-bit long v the advanced index is 0 when the wrapped
increment exceeds 99 and the wrapped increment otherwise; in particular for
any stored v < -1 the index is v+1, which is negative (outside [0,99]), and
the derived filename is "TEST_0" followed by the decimal rendering of that
negative number and ".txt" (the "0" pad fires because a negative index
satisfies index < 10), which is not of the zero-padded two-digit form. -/
theorem c10_amended_negative_index_filename (v : Int)
    (hlo : -2147483648 ≤ v) (hhi : v ≤ 2147483647) :
    (create_Filename v).persisted =
      (if wrapLong (v + 1) > 99 then 0 else wrapLong (v + 1)) ∧
    (v < -1 →
      (create_Filename v).persisted = v + 1 ∧
      (create_Filename v).persisted < 0 ∧
      (create_Filename v).filename =
        "TEST_0" ++ Int.repr (v + 1) ++ ".txt") := by
  constructor
  · rfl
  · intro hv
    have hw : wrapLong (v + 1) = v + 1 :=
      wrapLong_id (v + 1) (by omega) (by omega)
    have hng : ¬(wrapLong (v + 1) > 99) := by rw [hw]; omega
    have hp : (create_Filename v).persisted = v + 1 := by
      show (if wrapLong (v + 1) > 99 then 0 else wrapLong (v + 1)) = v + 1
      rw [if_neg hng, hw]
    refine ⟨hp, by omega, ?_⟩
    have hlt : v + 1 < 10 := by omega
    show derive (if wrapLong (v + 1) > 99 then 0 else wrapLong (v + 1)) = _
    rw [if_neg hng, hw]
    unfold derive
    rw [if_pos hlt]
    rw [show ("TEST_" ++ "0" : String) = "TEST_0" from rfl]

/-- Witness for the amended C10 at stored value -5. -/
theorem c10_amended_negative_index_filename_witness :
    (create_Filename (-5)).persisted = -5 + 1 ∧
    (create_Filename (-5)).filename =
      "TEST_0" ++ Int.repr (-5 + 1) ++ ".txt" :=
  have h := (c10_amended_negative_index_filename (-5) (by decide) (by decide)).2
    (by decide)
  ⟨h.1, h.2.2⟩

